import Mathlib

/-!
Verification of the CloudFront distribution-configuration pipeline
(`src/index.js` of serverless-api-cloudfront) against its specification.

The JavaScript code is shallowly embedded: JavaScript values become the
inductive type `JsVal`, the mutable `distributionConfig` object becomes a
typed record `DistributionConfig` whose optional blocks are `Option`s
(`delete` = set to `none`), and statements that would throw a `TypeError`
at runtime (property assignment on `undefined`) become `Except.error`.
-/

namespace SACF

/-- A JavaScript value: `undefined`, `null`, booleans, numbers
(modelled as integers; the plugin performs no arithmetic), strings,
arrays and plain objects (ordered key-value lists). -/
inductive JsVal where
  | undef : JsVal
  | null : JsVal
  | bool : Bool → JsVal
  | num : Int → JsVal
  | str : String → JsVal
  | arr : List JsVal → JsVal
  | obj : List (String × JsVal) → JsVal

/-- JavaScript truthiness: `undefined`, `null`, `false`, `0` and `""` are
falsy, every array and object is truthy. -/
def truthy : JsVal → Bool
  | .undef => false
  | .null => false
  | .bool b => b
  | .num n => n != 0
  | .str s => s != ""
  | .arr _ => true
  | .obj _ => true

/-- `Array.isArray`. -/
def isArray : JsVal → Bool
  | .arr _ => true
  | _ => false

/-- Strict equality `=== null` (`null` is a singleton value in JavaScript). -/
def isNull : JsVal → Bool
  | .null => true
  | _ => false

/-- Strict equality of a JavaScript value with a string literal (`=== "s"`). -/
def eqStr : JsVal → String → Bool
  | .str s, t => s == t
  | _, _ => false

/-- Strict equality with the boolean literal `true` (`=== true`). -/
def eqTrue : JsVal → Bool
  | .bool b => b
  | _ => false

/-- JavaScript property read `v[k]` as it behaves at this plugin's use
sites: a missing key of an object, or a property of a primitive or array,
reads as `undefined`. -/
def getField : JsVal → String → JsVal
  | .obj fs, k => match fs.lookup k with
    | some v => v
    | none => .undef
  | _, _ => JsVal.undef

/-- Walk a dotted path through nested objects, as `_.get` resolves it. -/
def getPath : JsVal → List String → JsVal
  | v, [] => v
  | v, k :: ks => getPath (getField v k) ks

/-- The plugin's `getConfig(field, defaultValue)` (src/index.js:228-230):
`_.get` substitutes the default only when the resolved value is
`undefined`; an explicit `null` is returned as `null`. The argument `cfg`
is the value at `serverless.service.custom.apiCloudFront`. -/
def getConfig (cfg : JsVal) (path : List String) (dflt : JsVal) : JsVal :=
  match getPath cfg path with
  | .undef => dflt
  | v => v

/-- The `Logging` block of the distribution config (spec section 3:
`{bucket, prefix}`). -/
structure LoggingBlock where
  Bucket : JsVal
  Prefix : JsVal

/-- One entry of `Origins`: the fields the rules read or write. -/
structure Origin where
  DomainName : JsVal
  OriginPath : String
  OriginCustomHeaders : List JsVal

/-- `DefaultCacheBehavior.ForwardedValues.Cookies`. -/
structure CookiesBlock where
  Forward : JsVal
  WhitelistedNames : Option JsVal

/-- `DefaultCacheBehavior.ForwardedValues`. -/
structure ForwardedValuesBlock where
  Cookies : CookiesBlock
  Headers : List JsVal
  QueryString : Bool
  QueryStringCacheKeys : Option JsVal

/-- `DefaultCacheBehavior`. -/
structure DefaultCacheBehaviorBlock where
  ForwardedValues : ForwardedValuesBlock
  CachePolicyId : Option JsVal
  OriginRequestPolicyId : Option JsVal
  DefaultTTL : JsVal
  MaxTTL : JsVal
  MinTTL : JsVal
  Compress : Bool

/-- `ViewerCertificate`: a field never assigned is `JsVal.undef`. -/
structure ViewerCertificateBlock where
  AcmCertificateArn : JsVal
  MinimumProtocolVersion : JsVal

/-- The mutable `distributionConfig` structure
(`resources.Resources.ApiDistribution.Properties.DistributionConfig`).
Optional blocks that the rules may `delete` are `Option`s; `none` means
the key is absent. -/
structure DistributionConfig where
  Logging : Option LoggingBlock
  Aliases : Option (List JsVal)
  Origins : List Origin
  DefaultCacheBehavior : DefaultCacheBehaviorBlock
  PriceClass : JsVal
  ViewerCertificate : Option ViewerCertificateBlock
  WebACLId : Option JsVal
  Comment : String

/-- The `Fn::Join` expression assigned to `Origins[0].DomainName`
(src/index.js:104-118); `httpApi && "HttpApi" || "ApiGatewayRestApi"`
selects the `Ref` by truthiness. -/
def fnJoinDomainName (useHttpApi : Bool) : JsVal :=
  .obj [("Fn::Join", .arr [
    .str "",
    .arr [
      .obj [("Ref", .str (if useHttpApi then "HttpApi" else "ApiGatewayRestApi"))],
      .str ".execute-api.",
      .obj [("Ref", .str "AWS::Region")],
      .str ".amazonaws.com"]])]

/-- Lodash `_.toPairs` for the values it can meet here: an object gives
its entries, an array gives index-keyed pairs, a string gives
character pairs, everything else gives `[]`. -/
def toPairs : JsVal → List (String × JsVal)
  | .obj fs => fs
  | .arr xs => (xs.enum).map fun p => (toString p.1, p.2)
  | .str s => (s.toList.enum).map fun p => (toString p.1, .str (String.mk [p.2]))
  | _ => []

/-- `_.zipObject(['HeaderName', 'HeaderValue'], pair)` applied to
`_.head` of a pair list: `_.head []` is `undefined`, and `zipObject`
then fills both keys with `undefined`. -/
def zipHeaderObject : Option (String × JsVal) → JsVal
  | some (k, v) => .obj [("HeaderName", .str k), ("HeaderValue", v)]
  | none => .obj [("HeaderName", .undef), ("HeaderValue", .undef)]

/-! ## The 14 rules (src/index.js:83-226)

A rule that assigns into a substructure that may have been deleted (or
that calls `.map` on a non-array) throws a `TypeError` in JavaScript;
such rules return `Except`, with the uniform error `"TypeError"` (the
runtime's message text is not modelled). All other rules are pure. -/

/-- Rule 1, `prepareLogging` (src/index.js:83-93): `logging.bucket !== null`
sets both `Bucket` and `Prefix` (prefix default `""`); otherwise the
whole `Logging` block is deleted. Assigning `Logging.Bucket` when the
template has no `Logging` block throws. -/
def prepareLogging (cfg : JsVal) (dc : DistributionConfig) : Except String DistributionConfig :=
  let loggingBucket := getConfig cfg ["logging", "bucket"] .null
  if isNull loggingBucket then
    .ok { dc with Logging := none }
  else
    match dc.Logging with
    | some _ =>
        let lg : LoggingBlock :=
          { Bucket := loggingBucket, Prefix := getConfig cfg ["logging", "prefix"] (.str "") }
        .ok { dc with Logging := some lg }
    | none => .error "TypeError"

/-- Rule 2, `prepareDomain` (src/index.js:95-119): `domain !== null` sets
`Aliases` (wrapped in a list unless already an array), else deletes it;
then `Origins[0].DomainName` is always recomputed, which throws when
`Origins` is empty. -/
def prepareDomain (cfg : JsVal) (dc : DistributionConfig) : Except String DistributionConfig :=
  let domain := getConfig cfg ["domain"] .null
  let httpApi := getConfig cfg ["httpApi"] (.bool false)
  let dc1 : DistributionConfig :=
    { dc with Aliases :=
        if isNull domain then none
        else some (match domain with
          | .arr ds => ds
          | d => [d]) }
  match dc1.Origins with
  | o :: rest =>
      .ok { dc1 with Origins := { o with DomainName := fnJoinDomainName (truthy httpApi) } :: rest }
  | [] => .error "TypeError"

/-- Rule 3, `preparePriceClass` (src/index.js:121-124). -/
def preparePriceClass (cfg : JsVal) (dc : DistributionConfig) : DistributionConfig :=
  { dc with PriceClass := getConfig cfg ["priceClass"] (.str "PriceClass_All") }

/-- Rule 4, `prepareOrigins` (src/index.js:126-138): builds
`OriginCustomHeaders` by mapping each entry through
`_.toPairs`/`_.head`/`_.zipObject` (throws when the config value is not
an array), and sets `OriginPath`. Line 134 first writes `/${stage}` and
line 137 overwrites it with `httpApi ? "" : `/${stage}``; only the final
value is observable and modelled. Both lines address `Origins[0]`, which
throws when `Origins` is empty. -/
def prepareOrigins (cfg : JsVal) (stage : String) (dc : DistributionConfig) : Except String DistributionConfig :=
  let originCustomHeaders := getConfig cfg ["originCustomHeaders"] (.arr [])
  match originCustomHeaders with
  | .arr hs =>
      match dc.Origins with
      | o :: rest =>
          let httpApi := getConfig cfg ["httpApi"] (.bool false)
          .ok { dc with Origins :=
            { o with
              OriginCustomHeaders := hs.map fun h => zipHeaderObject (toPairs h).head?,
              OriginPath := if truthy httpApi then "" else "/" ++ stage } :: rest }
      | [] => .error "TypeError"
  | _ => .error "TypeError"

/-- Rule 5, `prepareCookies` (src/index.js:140-146): an array forwards
`"whitelist"` and sets `WhitelistedNames`; otherwise the scalar is
forwarded verbatim and `WhitelistedNames` is left as it was. -/
def prepareCookies (cfg : JsVal) (dc : DistributionConfig) : DistributionConfig :=
  let forwardCookies := getConfig cfg ["cookies"] (.str "all")
  { dc with DefaultCacheBehavior :=
    { dc.DefaultCacheBehavior with ForwardedValues :=
      { dc.DefaultCacheBehavior.ForwardedValues with Cookies :=
        { Forward := if isArray forwardCookies then .str "whitelist" else forwardCookies,
          WhitelistedNames :=
            if isArray forwardCookies then some forwardCookies
            else dc.DefaultCacheBehavior.ForwardedValues.Cookies.WhitelistedNames } } } }

/-- Rule 6, `prepareHeaders` (src/index.js:148-156): an array is used
verbatim, `"none"` gives `[]`, any other scalar gives `["*"]`. -/
def prepareHeaders (cfg : JsVal) (dc : DistributionConfig) : DistributionConfig :=
  let forwardHeaders := getConfig cfg ["headers"] (.str "none")
  { dc with DefaultCacheBehavior :=
    { dc.DefaultCacheBehavior with ForwardedValues :=
      { dc.DefaultCacheBehavior.ForwardedValues with Headers :=
        match forwardHeaders with
        | .arr hs => hs
        | v => if eqStr v "none" then [] else [.str "*"] } } }

/-- Rule 7, `prepareTTL` (src/index.js:170-178): `if (ttl)` is a
truthiness test; a truthy non-object reads all three properties as
`undefined`. -/
def prepareTTL (cfg : JsVal) (dc : DistributionConfig) : DistributionConfig :=
  let ttl := getConfig cfg ["ttl"] .null
  { dc with DefaultCacheBehavior :=
    { dc.DefaultCacheBehavior with
      DefaultTTL := if truthy ttl then getField ttl "default" else dc.DefaultCacheBehavior.DefaultTTL,
      MaxTTL := if truthy ttl then getField ttl "max" else dc.DefaultCacheBehavior.MaxTTL,
      MinTTL := if truthy ttl then getField ttl "min" else dc.DefaultCacheBehavior.MinTTL } }

/-- Rule 8, `preparePolicies` (src/index.js:158-168): `if (cachePolicyId)`
and `if (originRequestPolicyId)` are truthiness tests, not presence
tests. -/
def preparePolicies (cfg : JsVal) (dc : DistributionConfig) : DistributionConfig :=
  let cachePolicyId := getConfig cfg ["cachePolicyId"] .null
  let originRequestPolicyId := getConfig cfg ["originRequestPolicyId"] .null
  { dc with DefaultCacheBehavior :=
    { dc.DefaultCacheBehavior with
      CachePolicyId :=
        if truthy cachePolicyId then some cachePolicyId
        else dc.DefaultCacheBehavior.CachePolicyId,
      OriginRequestPolicyId :=
        if truthy originRequestPolicyId then some originRequestPolicyId
        else dc.DefaultCacheBehavior.OriginRequestPolicyId } }

/-- Rule 9, `prepareQueryString` (src/index.js:180-189): an array sets
`QueryString = true` and the cache keys; otherwise `QueryString` is
`=== 'all'`. -/
def prepareQueryString (cfg : JsVal) (dc : DistributionConfig) : DistributionConfig :=
  let forwardQueryString := getConfig cfg ["querystring"] (.str "all")
  { dc with DefaultCacheBehavior :=
    { dc.DefaultCacheBehavior with ForwardedValues :=
      { dc.DefaultCacheBehavior.ForwardedValues with
        QueryString := if isArray forwardQueryString then true else eqStr forwardQueryString "all",
        QueryStringCacheKeys :=
          if isArray forwardQueryString then some forwardQueryString
          else dc.DefaultCacheBehavior.ForwardedValues.QueryStringCacheKeys } } }

/-- Rule 10, `prepareComment` (src/index.js:191-194): `apiName` is the
value of the external naming collaborator
`serverless.getProvider('aws').naming.getApiGatewayName()`. -/
def prepareComment (apiName : String) (dc : DistributionConfig) : DistributionConfig :=
  { dc with Comment := "Serverless Managed " ++ apiName }

/-- Rule 11, `prepareCertificate` (src/index.js:196-204): `certificate
!== null` assigns `ViewerCertificate.AcmCertificateArn` (throws when the
template has no `ViewerCertificate` block); otherwise the block is
deleted. -/
def prepareCertificate (cfg : JsVal) (dc : DistributionConfig) : Except String DistributionConfig :=
  let certificate := getConfig cfg ["certificate"] .null
  if isNull certificate then
    .ok { dc with ViewerCertificate := none }
  else
    match dc.ViewerCertificate with
    | some vc => .ok { dc with ViewerCertificate := some { vc with AcmCertificateArn := certificate } }
    | none => .error "TypeError"

/-- Rule 12, `prepareWaf` (src/index.js:206-214): `waf !== null` sets
`WebACLId`, else deletes it; no failure is possible. -/
def prepareWaf (cfg : JsVal) (dc : DistributionConfig) : DistributionConfig :=
  let waf := getConfig cfg ["waf"] .null
  { dc with WebACLId := if isNull waf then none else some waf }

/-- Rule 13, `prepareCompress` (src/index.js:216-218): `Compress` is true
exactly when the config value is strictly `=== true`. -/
def prepareCompress (cfg : JsVal) (dc : DistributionConfig) : DistributionConfig :=
  { dc with DefaultCacheBehavior :=
    { dc.DefaultCacheBehavior with Compress := eqTrue (getConfig cfg ["compress"] (.bool false)) } }

/-- Rule 14, `prepareMinimumProtocolVersion` (src/index.js:220-226): a
truthy value is assigned into `ViewerCertificate`, which throws when that
block was deleted by rule 11 (certificate absent). -/
def prepareMinimumProtocolVersion (cfg : JsVal) (dc : DistributionConfig) : Except String DistributionConfig :=
  let minimumProtocolVersion := getConfig cfg ["minimumProtocolVersion"] .undef
  if truthy minimumProtocolVersion then
    match dc.ViewerCertificate with
    | some vc =>
        let vc1 := { vc with MinimumProtocolVersion := minimumProtocolVersion }
        .ok { dc with ViewerCertificate := some vc1 }
    | none => .error "TypeError"
  else
    .ok dc

/-- `prepareResources` (src/index.js:64-81): the 14 rules in the source's
call order — note `prepareTTL` (line 73) runs before `preparePolicies`
(line 74). -/
def prepareResources (cfg : JsVal) (stage apiName : String) (dc : DistributionConfig) :
    Except String DistributionConfig :=
  (prepareLogging cfg dc).bind fun dc =>
  (prepareDomain cfg dc).bind fun dc =>
  let dc := preparePriceClass cfg dc
  (prepareOrigins cfg stage dc).bind fun dc =>
  let dc := prepareCookies cfg dc
  let dc := prepareHeaders cfg dc
  let dc := prepareTTL cfg dc
  let dc := preparePolicies cfg dc
  let dc := prepareQueryString cfg dc
  let dc := prepareComment apiName dc
  (prepareCertificate cfg dc).bind fun dc =>
  let dc := prepareWaf cfg dc
  let dc := prepareCompress cfg dc
  prepareMinimumProtocolVersion cfg dc

/-! ## Derived total forms

For reasoning, each fallible rule gets a total companion (`…Fun`) that
agrees with it on every input on which the rule does not throw, and
`okAll` records exactly when no rule throws. `prepareResources_eq` below
ties them to the source-mirroring definitions. Each companion is a
single record update, so projections of untouched fields are
definitional. -/

/-- Total companion of `prepareLogging`. -/
def prepareLoggingFun (cfg : JsVal) (dc : DistributionConfig) : DistributionConfig :=
  let loggingBucket := getConfig cfg ["logging", "bucket"] .null
  { dc with Logging :=
      if isNull loggingBucket then none
      else some { Bucket := loggingBucket, Prefix := getConfig cfg ["logging", "prefix"] (.str "") } }

/-- Total companion of `prepareDomain`. -/
def prepareDomainFun (cfg : JsVal) (dc : DistributionConfig) : DistributionConfig :=
  let domain := getConfig cfg ["domain"] .null
  let httpApi := getConfig cfg ["httpApi"] (.bool false)
  { dc with
    Aliases :=
      if isNull domain then none
      else some (match domain with
        | .arr ds => ds
        | d => [d]),
    Origins :=
      match dc.Origins with
      | o :: rest => { o with DomainName := fnJoinDomainName (truthy httpApi) } :: rest
      | [] => dc.Origins }

/-- Total companion of `prepareOrigins`. -/
def prepareOriginsFun (cfg : JsVal) (stage : String) (dc : DistributionConfig) : DistributionConfig :=
  let originCustomHeaders := getConfig cfg ["originCustomHeaders"] (.arr [])
  let httpApi := getConfig cfg ["httpApi"] (.bool false)
  { dc with Origins :=
      match originCustomHeaders, dc.Origins with
      | .arr hs, o :: rest =>
          { o with
            OriginCustomHeaders := hs.map fun h => zipHeaderObject (toPairs h).head?,
            OriginPath := if truthy httpApi then "" else "/" ++ stage } :: rest
      | _, _ => dc.Origins }

/-- Total companion of `prepareCertificate`. -/
def prepareCertificateFun (cfg : JsVal) (dc : DistributionConfig) : DistributionConfig :=
  let certificate := getConfig cfg ["certificate"] .null
  { dc with ViewerCertificate :=
      if isNull certificate then none
      else
        match dc.ViewerCertificate with
        | some vc => some { vc with AcmCertificateArn := certificate }
        | none => dc.ViewerCertificate }

/-- Total companion of `prepareMinimumProtocolVersion`. -/
def prepareMinimumProtocolVersionFun (cfg : JsVal) (dc : DistributionConfig) : DistributionConfig :=
  let minimumProtocolVersion := getConfig cfg ["minimumProtocolVersion"] .undef
  { dc with ViewerCertificate :=
      if truthy minimumProtocolVersion then
        match dc.ViewerCertificate with
        | some vc => some { vc with MinimumProtocolVersion := minimumProtocolVersion }
        | none => dc.ViewerCertificate
      else dc.ViewerCertificate }

/-- The pure composition of all 14 rules in the source's call order. -/
def pipeFun (cfg : JsVal) (stage apiName : String) (t : DistributionConfig) : DistributionConfig :=
  prepareMinimumProtocolVersionFun cfg <|
  prepareCompress cfg <|
  prepareWaf cfg <|
  prepareCertificateFun cfg <|
  prepareComment apiName <|
  prepareQueryString cfg <|
  preparePolicies cfg <|
  prepareTTL cfg <|
  prepareHeaders cfg <|
  prepareCookies cfg <|
  prepareOriginsFun cfg stage <|
  preparePriceClass cfg <|
  prepareDomainFun cfg <|
  prepareLoggingFun cfg t

/-- Exactly when no rule of the pipeline throws, in terms of the config
and the untouched template: `prepareLogging` needs a `Logging` block
when a bucket is set, rules 2 and 4 need a first origin,
`prepareOrigins` needs `originCustomHeaders` to be an array,
`prepareCertificate` needs a `ViewerCertificate` block when a
certificate is set, and rule 14 needs the certificate to have kept that
block alive when `minimumProtocolVersion` is truthy. -/
def okAll (cfg : JsVal) (t : DistributionConfig) : Bool :=
  (isNull (getConfig cfg ["logging", "bucket"] .null) || t.Logging.isSome) &&
  !t.Origins.isEmpty &&
  isArray (getConfig cfg ["originCustomHeaders"] (.arr [])) &&
  (isNull (getConfig cfg ["certificate"] .null) || t.ViewerCertificate.isSome) &&
  (!truthy (getConfig cfg ["minimumProtocolVersion"] .undef) ||
    !isNull (getConfig cfg ["certificate"] .null))

/-! ## The template merge

`createDeploymentArtifacts` (src/index.js:18-38) ends with
`_.merge(baseResources, resources)`. Lodash merge semantics: a source
key whose value and the target's value are both plain objects merges
recursively; two arrays merge index by index (the target's extra
elements survive); an `undefined` source value leaves the target
untouched; otherwise the source value overwrites. (Lodash also merges a
plain object into an array by numeric index; that mixed case cannot
arise from the plugin's object-shaped operands and is modelled as
overwrite.) -/

mutual

/-- Lodash `_.merge target source` on JavaScript values. -/
def mergeVals : JsVal → JsVal → JsVal
  | t, .undef => t
  | .obj tf, .obj sf => .obj (mergeFields tf sf)
  | .arr tx, .arr sx => .arr (mergeElems tx sx)
  | _, s => s
termination_by t s => (sizeOf s, sizeOf t)

/-- Fold the source's fields into the target's field list, left to
right. -/
def mergeFields : List (String × JsVal) → List (String × JsVal) → List (String × JsVal)
  | tf, [] => tf
  | tf, (k, v) :: rest => mergeFields (mergeOneField tf k v) rest
termination_by tf sf => (sizeOf sf, sizeOf tf)

/-- Merge one source field into the target's field list: the first
matching key is merged in place, a missing key is appended. -/
def mergeOneField : List (String × JsVal) → String → JsVal → List (String × JsVal)
  | [], k, v => [(k, v)]
  | (k', v') :: tf, k, v =>
      if k' = k then (k', mergeVals v' v) :: tf
      else (k', v') :: mergeOneField tf k v
termination_by tf _ v => (sizeOf v, sizeOf tf)

/-- Merge two arrays index by index. -/
def mergeElems : List JsVal → List JsVal → List JsVal
  | tx, [] => tx
  | [], sx => sx
  | t :: tx, s :: sx => mergeVals t s :: mergeElems tx sx
termination_by tx sx => (sizeOf sx, sizeOf tx)

end

/-- The reference pipeline that follows the words of the specification:
the same 14 rules, but in the order §4.2 lists them, with **Policies
(rule 7) before TTL (rule 8)** — the source calls `prepareTTL` before
`preparePolicies`. -/
def prepareResourcesSpecOrder (cfg : JsVal) (stage apiName : String) (dc : DistributionConfig) :
    Except String DistributionConfig :=
  (prepareLogging cfg dc).bind fun dc =>
  (prepareDomain cfg dc).bind fun dc =>
  let dc := preparePriceClass cfg dc
  (prepareOrigins cfg stage dc).bind fun dc =>
  let dc := prepareCookies cfg dc
  let dc := prepareHeaders cfg dc
  let dc := preparePolicies cfg dc
  let dc := prepareTTL cfg dc
  let dc := prepareQueryString cfg dc
  let dc := prepareComment apiName dc
  (prepareCertificate cfg dc).bind fun dc =>
  let dc := prepareWaf cfg dc
  let dc := prepareCompress cfg dc
  prepareMinimumProtocolVersion cfg dc

/-- Modelled from the spec: the static resource template `resources.yml`
and its serialisation are not under `src/`; following §3 and §9, the
typed structure is rendered as the JSON object it denotes, each absent
optional block omitted. -/
def serializeOrigin (o : Origin) : JsVal :=
  .obj [("DomainName", o.DomainName), ("OriginPath", .str o.OriginPath),
        ("OriginCustomHeaders", .arr o.OriginCustomHeaders)]

/-- JSON view of the cookies block (see `serializeOrigin`). -/
def serializeCookies (c : CookiesBlock) : JsVal :=
  .obj ([("Forward", c.Forward)] ++
    (match c.WhitelistedNames with
      | some w => [("WhitelistedNames", w)]
      | none => []))

/-- JSON view of `ForwardedValues` (see `serializeOrigin`). -/
def serializeForwardedValues (fv : ForwardedValuesBlock) : JsVal :=
  .obj ([("Cookies", serializeCookies fv.Cookies), ("Headers", .arr fv.Headers),
         ("QueryString", .bool fv.QueryString)] ++
    (match fv.QueryStringCacheKeys with
      | some q => [("QueryStringCacheKeys", q)]
      | none => []))

/-- JSON view of `DefaultCacheBehavior` (see `serializeOrigin`). -/
def serializeDCB (b : DefaultCacheBehaviorBlock) : JsVal :=
  .obj ([("ForwardedValues", serializeForwardedValues b.ForwardedValues)] ++
    (match b.CachePolicyId with
      | some v => [("CachePolicyId", v)]
      | none => []) ++
    (match b.OriginRequestPolicyId with
      | some v => [("OriginRequestPolicyId", v)]
      | none => []) ++
    [("DefaultTTL", b.DefaultTTL), ("MaxTTL", b.MaxTTL), ("MinTTL", b.MinTTL),
     ("Compress", .bool b.Compress)])

/-- JSON view of the whole distribution config (see `serializeOrigin`). -/
def serializeDC (dc : DistributionConfig) : JsVal :=
  .obj (
    (match dc.Logging with
      | some lg => [("Logging", .obj [("Bucket", lg.Bucket), ("Prefix", lg.Prefix)])]
      | none => []) ++
    (match dc.Aliases with
      | some xs => [("Aliases", .arr xs)]
      | none => []) ++
    [("Origins", .arr (dc.Origins.map serializeOrigin)),
     ("DefaultCacheBehavior", serializeDCB dc.DefaultCacheBehavior),
     ("PriceClass", dc.PriceClass),
     ("Comment", .str dc.Comment)] ++
    (match dc.ViewerCertificate with
      | some vc => [("ViewerCertificate", .obj
          [("AcmCertificateArn", vc.AcmCertificateArn),
           ("MinimumProtocolVersion", vc.MinimumProtocolVersion)])]
      | none => []) ++
    (match dc.WebACLId with
      | some w => [("WebACLId", w)]
      | none => []))

/-- `createDeploymentArtifacts` (src/index.js:18-38): run the rules over
the loaded resource template, attach `Tags` when the deployment config
has provider tags (`Object.entries` of the tag map), and deep-merge the
resource fragment into the caller's template. `apiName` is the external
naming collaborator's value read by rule 10. -/
def createDeploymentArtifacts (baseResources : JsVal) (resourcesDC : DistributionConfig)
    (cfg : JsVal) (stage apiName : String)
    (providerTags : Option (List (String × JsVal))) : Except String JsVal :=
  (prepareResources cfg stage apiName resourcesDC).bind fun dc =>
  let props : List (String × JsVal) :=
    [("DistributionConfig", serializeDC dc)] ++
    (match providerTags with
      | some ts => [("Tags", .arr (ts.map fun kv => .obj [("Key", .str kv.1), ("Value", kv.2)]))]
      | none => [])
  .ok (mergeVals baseResources (.obj [("Resources", .obj [("ApiDistribution", .obj
    [("Type", .str "AWS::CloudFront::Distribution"), ("Properties", .obj props)])])]))

/-- The scalar JavaScript values: `null`, booleans, numbers, strings. -/
def isScalar : JsVal → Bool
  | .null => true
  | .bool _ => true
  | .num _ => true
  | .str _ => true
  | _ => false

/-- A concrete base template for witnesses: all blocks the static
`resources.yml` provides are present. -/
def sampleDC : DistributionConfig :=
  { Logging := some { Bucket := .str "", Prefix := .str "" },
    Aliases := none,
    Origins := [{ DomainName := .undef, OriginPath := "", OriginCustomHeaders := [] }],
    DefaultCacheBehavior :=
      { ForwardedValues :=
          { Cookies := { Forward := .str "none", WhitelistedNames := none },
            Headers := [],
            QueryString := false,
            QueryStringCacheKeys := none },
        CachePolicyId := none,
        OriginRequestPolicyId := none,
        DefaultTTL := .num 0,
        MaxTTL := .num 0,
        MinTTL := .num 0,
        Compress := false },
    PriceClass := .str "PriceClass_100",
    ViewerCertificate := some { AcmCertificateArn := .undef, MinimumProtocolVersion := .undef },
    WebACLId := none,
    Comment := "" }

/-- A second base template for frame witnesses: it differs from
`sampleDC` exactly in fields the pipeline overwrites unconditionally. -/
def sampleDC2 : DistributionConfig :=
  { sampleDC with
    PriceClass := .str "PriceClass_200",
    Comment := "old comment",
    DefaultCacheBehavior := { sampleDC.DefaultCacheBehavior with Compress := true } }

theorem getConfig_ne_undef (cfg : JsVal) (p : List String) (d : JsVal) (hd : d ≠ .undef) :
    getConfig cfg p d ≠ .undef := by
  unfold getConfig
  cases h : getPath cfg p <;> simp [hd]

theorem ne_null_of_isNull_false {v : JsVal} (h : isNull v = false) : v ≠ .null := by
  cases v <;> simp_all [isNull]

/-! ### Field-wise closed forms of the pure pipeline

Each equation is definitional: the pipeline's companion functions are
single record updates, so a field's final value is computed by the one
rule that owns it, from the configuration and that field's own base
value. -/

theorem pipeFun_Logging (cfg : JsVal) (stage apiName : String) (t : DistributionConfig) :
    (pipeFun cfg stage apiName t).Logging =
      (if isNull (getConfig cfg ["logging", "bucket"] .null) then none
       else some { Bucket := getConfig cfg ["logging", "bucket"] .null,
                   Prefix := getConfig cfg ["logging", "prefix"] (.str "") }) := rfl

theorem pipeFun_Aliases (cfg : JsVal) (stage apiName : String) (t : DistributionConfig) :
    (pipeFun cfg stage apiName t).Aliases =
      (if isNull (getConfig cfg ["domain"] .null) then none
       else some (match getConfig cfg ["domain"] .null with
         | .arr ds => ds
         | d => [d])) := rfl

theorem pipeFun_PriceClass (cfg : JsVal) (stage apiName : String) (t : DistributionConfig) :
    (pipeFun cfg stage apiName t).PriceClass =
      getConfig cfg ["priceClass"] (.str "PriceClass_All") := rfl

theorem pipeFun_Comment (cfg : JsVal) (stage apiName : String) (t : DistributionConfig) :
    (pipeFun cfg stage apiName t).Comment = "Serverless Managed " ++ apiName := rfl

theorem pipeFun_WebACLId (cfg : JsVal) (stage apiName : String) (t : DistributionConfig) :
    (pipeFun cfg stage apiName t).WebACLId =
      (if isNull (getConfig cfg ["waf"] .null) then none
       else some (getConfig cfg ["waf"] .null)) := rfl

theorem pipeFun_ViewerCertificate (cfg : JsVal) (stage apiName : String) (t : DistributionConfig) :
    (pipeFun cfg stage apiName t).ViewerCertificate =
      (let cert := getConfig cfg ["certificate"] .null
       let v1 : Option ViewerCertificateBlock :=
         if isNull cert then none
         else match t.ViewerCertificate with
           | some vc => some { vc with AcmCertificateArn := cert }
           | none => t.ViewerCertificate
       if truthy (getConfig cfg ["minimumProtocolVersion"] .undef) then
         match v1 with
         | some vc =>
             some { vc with MinimumProtocolVersion := getConfig cfg ["minimumProtocolVersion"] .undef }
         | none => v1
       else v1) := rfl

theorem pipeFun_CachePolicyId (cfg : JsVal) (stage apiName : String) (t : DistributionConfig) :
    (pipeFun cfg stage apiName t).DefaultCacheBehavior.CachePolicyId =
      (if truthy (getConfig cfg ["cachePolicyId"] .null)
       then some (getConfig cfg ["cachePolicyId"] .null)
       else t.DefaultCacheBehavior.CachePolicyId) := rfl

theorem pipeFun_OriginRequestPolicyId (cfg : JsVal) (stage apiName : String) (t : DistributionConfig) :
    (pipeFun cfg stage apiName t).DefaultCacheBehavior.OriginRequestPolicyId =
      (if truthy (getConfig cfg ["originRequestPolicyId"] .null)
       then some (getConfig cfg ["originRequestPolicyId"] .null)
       else t.DefaultCacheBehavior.OriginRequestPolicyId) := rfl

theorem pipeFun_DefaultTTL (cfg : JsVal) (stage apiName : String) (t : DistributionConfig) :
    (pipeFun cfg stage apiName t).DefaultCacheBehavior.DefaultTTL =
      (if truthy (getConfig cfg ["ttl"] .null)
       then getField (getConfig cfg ["ttl"] .null) "default"
       else t.DefaultCacheBehavior.DefaultTTL) := rfl

theorem pipeFun_MaxTTL (cfg : JsVal) (stage apiName : String) (t : DistributionConfig) :
    (pipeFun cfg stage apiName t).DefaultCacheBehavior.MaxTTL =
      (if truthy (getConfig cfg ["ttl"] .null)
       then getField (getConfig cfg ["ttl"] .null) "max"
       else t.DefaultCacheBehavior.MaxTTL) := rfl

theorem pipeFun_MinTTL (cfg : JsVal) (stage apiName : String) (t : DistributionConfig) :
    (pipeFun cfg stage apiName t).DefaultCacheBehavior.MinTTL =
      (if truthy (getConfig cfg ["ttl"] .null)
       then getField (getConfig cfg ["ttl"] .null) "min"
       else t.DefaultCacheBehavior.MinTTL) := rfl

theorem pipeFun_Compress (cfg : JsVal) (stage apiName : String) (t : DistributionConfig) :
    (pipeFun cfg stage apiName t).DefaultCacheBehavior.Compress =
      eqTrue (getConfig cfg ["compress"] (.bool false)) := rfl

theorem pipeFun_CookiesForward (cfg : JsVal) (stage apiName : String) (t : DistributionConfig) :
    (pipeFun cfg stage apiName t).DefaultCacheBehavior.ForwardedValues.Cookies.Forward =
      (if isArray (getConfig cfg ["cookies"] (.str "all")) then .str "whitelist"
       else getConfig cfg ["cookies"] (.str "all")) := rfl

theorem pipeFun_WhitelistedNames (cfg : JsVal) (stage apiName : String) (t : DistributionConfig) :
    (pipeFun cfg stage apiName t).DefaultCacheBehavior.ForwardedValues.Cookies.WhitelistedNames =
      (if isArray (getConfig cfg ["cookies"] (.str "all"))
       then some (getConfig cfg ["cookies"] (.str "all"))
       else t.DefaultCacheBehavior.ForwardedValues.Cookies.WhitelistedNames) := rfl

theorem pipeFun_Headers (cfg : JsVal) (stage apiName : String) (t : DistributionConfig) :
    (pipeFun cfg stage apiName t).DefaultCacheBehavior.ForwardedValues.Headers =
      (match getConfig cfg ["headers"] (.str "none") with
       | .arr hs => hs
       | v => if eqStr v "none" then [] else [.str "*"]) := rfl

theorem pipeFun_QueryString (cfg : JsVal) (stage apiName : String) (t : DistributionConfig) :
    (pipeFun cfg stage apiName t).DefaultCacheBehavior.ForwardedValues.QueryString =
      (if isArray (getConfig cfg ["querystring"] (.str "all")) then true
       else eqStr (getConfig cfg ["querystring"] (.str "all")) "all") := rfl

theorem pipeFun_QueryStringCacheKeys (cfg : JsVal) (stage apiName : String) (t : DistributionConfig) :
    (pipeFun cfg stage apiName t).DefaultCacheBehavior.ForwardedValues.QueryStringCacheKeys =
      (if isArray (getConfig cfg ["querystring"] (.str "all"))
       then some (getConfig cfg ["querystring"] (.str "all"))
       else t.DefaultCacheBehavior.ForwardedValues.QueryStringCacheKeys) := rfl

theorem pipeFun_Origins (cfg : JsVal) (stage apiName : String) (t : DistributionConfig) :
    (pipeFun cfg stage apiName t).Origins =
      (match getConfig cfg ["originCustomHeaders"] (.arr []),
          (match t.Origins with
           | o :: rest =>
               { o with DomainName := fnJoinDomainName (truthy (getConfig cfg ["httpApi"] (.bool false))) } :: rest
           | [] => t.Origins) with
       | .arr hs, o :: rest =>
           { o with
             OriginCustomHeaders := hs.map fun h => zipHeaderObject (toPairs h).head?,
             OriginPath := if truthy (getConfig cfg ["httpApi"] (.bool false)) then ""
               else "/" ++ stage } :: rest
       | _, _ =>
           (match t.Origins with
            | o :: rest =>
                { o with DomainName := fnJoinDomainName (truthy (getConfig cfg ["httpApi"] (.bool false))) } :: rest
            | [] => t.Origins)) := rfl

theorem prepareLogging_eq (cfg : JsVal) (dc : DistributionConfig) :
    prepareLogging cfg dc =
      if isNull (getConfig cfg ["logging", "bucket"] .null) || dc.Logging.isSome then
        .ok (prepareLoggingFun cfg dc)
      else .error "TypeError" := by
  unfold prepareLogging prepareLoggingFun
  cases h : isNull (getConfig cfg ["logging", "bucket"] .null) <;>
    cases hl : dc.Logging <;> simp [h, hl]

theorem prepareDomain_eq (cfg : JsVal) (dc : DistributionConfig) :
    prepareDomain cfg dc =
      if dc.Origins.isEmpty then .error "TypeError"
      else .ok (prepareDomainFun cfg dc) := by
  unfold prepareDomain prepareDomainFun
  cases h : dc.Origins <;> simp [h]

theorem prepareOrigins_eq (cfg : JsVal) (stage : String) (dc : DistributionConfig) :
    prepareOrigins cfg stage dc =
      if isArray (getConfig cfg ["originCustomHeaders"] (.arr [])) && !dc.Origins.isEmpty then
        .ok (prepareOriginsFun cfg stage dc)
      else .error "TypeError" := by
  unfold prepareOrigins prepareOriginsFun
  cases h : getConfig cfg ["originCustomHeaders"] (.arr []) <;>
    cases ho : dc.Origins <;> simp [h, ho, isArray]

theorem prepareCertificate_eq (cfg : JsVal) (dc : DistributionConfig) :
    prepareCertificate cfg dc =
      if isNull (getConfig cfg ["certificate"] .null) || dc.ViewerCertificate.isSome then
        .ok (prepareCertificateFun cfg dc)
      else .error "TypeError" := by
  unfold prepareCertificate prepareCertificateFun
  cases h : isNull (getConfig cfg ["certificate"] .null) <;>
    cases hv : dc.ViewerCertificate <;> simp [h, hv]

theorem prepareMinimumProtocolVersion_eq (cfg : JsVal) (dc : DistributionConfig) :
    prepareMinimumProtocolVersion cfg dc =
      if !truthy (getConfig cfg ["minimumProtocolVersion"] .undef) || dc.ViewerCertificate.isSome then
        .ok (prepareMinimumProtocolVersionFun cfg dc)
      else .error "TypeError" := by
  unfold prepareMinimumProtocolVersion prepareMinimumProtocolVersionFun
  cases h : truthy (getConfig cfg ["minimumProtocolVersion"] .undef) with
  | false => simp only [h, Bool.not_false, Bool.true_or, if_true, Bool.false_eq_true, if_false]
  | true => cases hv : dc.ViewerCertificate <;> simp [h, hv]

/-- Master characterisation: the pipeline succeeds exactly when `okAll`
holds and then computes `pipeFun`; otherwise some rule throws. -/
theorem prepareResources_eq (cfg : JsVal) (stage apiName : String) (t : DistributionConfig) :
    prepareResources cfg stage apiName t =
      if okAll cfg t then .ok (pipeFun cfg stage apiName t) else .error "TypeError" := by
  cases h1 : isNull (getConfig cfg ["logging", "bucket"] .null) <;>
  cases hL : t.Logging <;>
  cases ho : t.Origins <;>
  cases h3 : getConfig cfg ["originCustomHeaders"] (.arr []) <;>
  cases h4 : isNull (getConfig cfg ["certificate"] .null) <;>
  cases hVC : t.ViewerCertificate <;>
  cases h5 : truthy (getConfig cfg ["minimumProtocolVersion"] .undef) <;>
    simp [prepareResources, okAll, pipeFun, prepareLogging, prepareLoggingFun, prepareDomain,
      prepareDomainFun, preparePriceClass, prepareOrigins, prepareOriginsFun, prepareCookies,
      prepareHeaders, prepareTTL, preparePolicies, prepareQueryString, prepareComment,
      prepareCertificate, prepareCertificateFun, prepareWaf, prepareCompress,
      prepareMinimumProtocolVersion, prepareMinimumProtocolVersionFun,
      Except.bind, isArray, h1, hL, ho, h3, h4, hVC, h5]

theorem mergeOneField_lookup_self (tf : List (String × JsVal)) (k : String) (v : JsVal) :
    (mergeOneField tf k v).lookup k =
      some (match tf.lookup k with
        | some tv => mergeVals tv v
        | none => v) := by
  induction tf with
  | nil => simp [mergeOneField, List.lookup]
  | cons p tf ih =>
      obtain ⟨k', v'⟩ := p
      by_cases h : k' = k
      · subst h
        simp [mergeOneField, List.lookup]
      · have hb : (k == k') = false := beq_eq_false_iff_ne.mpr (Ne.symm h)
        simp [mergeOneField, List.lookup, h, hb, ih]

theorem mergeOneField_lookup_other (tf : List (String × JsVal)) (k k₀ : String) (v : JsVal)
    (h : k ≠ k₀) : (mergeOneField tf k₀ v).lookup k = tf.lookup k := by
  have hb : (k == k₀) = false := beq_eq_false_iff_ne.mpr h
  induction tf with
  | nil => simp [mergeOneField, List.lookup, hb]
  | cons p tf ih =>
      obtain ⟨k', v'⟩ := p
      by_cases h' : k' = k₀
      · subst h'
        simp [mergeOneField, List.lookup, hb]
      · by_cases h'' : k = k'
        · subst h''
          simp [mergeOneField, List.lookup, h']
        · have hb' : (k == k') = false := beq_eq_false_iff_ne.mpr h''
          simp [mergeOneField, List.lookup, h', hb', ih]

theorem lookup_eq_none_of_not_mem_keys {l : List (String × JsVal)} {k : String}
    (h : k ∉ l.map Prod.fst) : l.lookup k = none := by
  induction l with
  | nil => simp [List.lookup]
  | cons p l ih =>
      obtain ⟨k', v'⟩ := p
      simp only [List.map_cons, List.mem_cons] at h
      push_neg at h
      have hb : (k == k') = false := beq_eq_false_iff_ne.mpr h.1
      simp [List.lookup, hb, ih h.2]

/-- Key-wise value of an object merge: a key only in the target keeps its
value, a key only in the source is copied, a key in both holds the
recursive merge of the two values. -/
theorem mergeFields_lookup (sf : List (String × JsVal)) (tf : List (String × JsVal))
    (k : String) (hnd : (sf.map Prod.fst).Nodup) :
    (mergeFields tf sf).lookup k =
      match sf.lookup k, tf.lookup k with
      | some sv, some tv => some (mergeVals tv sv)
      | some sv, none => some sv
      | none, o => o := by
  induction sf generalizing tf with
  | nil => cases h : tf.lookup k <;> simp [mergeFields, List.lookup, h]
  | cons p rest ih =>
      obtain ⟨k₀, v₀⟩ := p
      simp only [List.map_cons, List.nodup_cons] at hnd
      rw [show mergeFields tf ((k₀, v₀) :: rest) = mergeFields (mergeOneField tf k₀ v₀) rest
        from by simp [mergeFields]]
      rw [ih _ hnd.2]
      by_cases h : k = k₀
      · subst h
        have hnone : rest.lookup k = none := lookup_eq_none_of_not_mem_keys hnd.1
        rw [hnone, mergeOneField_lookup_self]
        cases htf : tf.lookup k <;> simp [List.lookup, htf]
      · rw [mergeOneField_lookup_other _ _ _ _ h]
        have hb : (k == k₀) = false := beq_eq_false_iff_ne.mpr h
        have : ((k₀, v₀) :: rest).lookup k = rest.lookup k := by
          simp [List.lookup, hb]
        rw [this]

/-- Index-wise value of an array merge: within the overlap the elements
merge recursively, past the shorter operand the longer one's elements
survive. -/
theorem mergeElems_getElem? (tx sx : List JsVal) (i : Nat) :
    (mergeElems tx sx)[i]? =
      match tx[i]?, sx[i]? with
      | some t, some s => some (mergeVals t s)
      | some t, none => some t
      | none, so => so := by
  induction tx generalizing sx i with
  | nil =>
      cases sx with
      | nil => simp [mergeElems]
      | cons s sx => cases hi : (s :: sx)[i]? <;> simp [mergeElems, hi]
  | cons t tx ih =>
      cases sx with
      | nil => cases hi : (t :: tx)[i]? <;> simp [mergeElems, hi]
      | cons s sx =>
          cases i with
          | zero => simp [mergeElems]
          | succ i => simpa [mergeElems] using ih sx i

/-- A scalar source value always overwrites the target wholesale. -/
theorem mergeVals_scalar (t s : JsVal) (h : isScalar s = true) : mergeVals t s = s := by
  cases t <;> cases s <;> simp_all [mergeVals, isScalar]

/-! ## The claims -/

/-- Claim C1, counterexample: with `certificate` absent and
`minimumProtocolVersion = "TLSv1.2_2021"`, the configured protocol
version is not silently dropped — rule 14 assigns into the
`ViewerCertificate` block that rule 11 deleted, and the pipeline aborts
with a TypeError instead of completing. -/
theorem C1_counterexample :
    getPath (JsVal.obj [("minimumProtocolVersion", .str "TLSv1.2_2021")]) ["certificate"]
      = .undef ∧
    prepareResources (.obj [("minimumProtocolVersion", .str "TLSv1.2_2021")]) "dev" "api"
      sampleDC = .error "TypeError" :=
  ⟨rfl, rfl⟩

/-- Claim C1, amended: when `certificate` resolves to `null` (absent or
explicit null), every successful pipeline output lacks the
`ViewerCertificate` key; but when `minimumProtocolVersion` is
additionally truthy the pipeline does not complete — it throws a
TypeError, because rule 14 writes into the block deleted by rule 11. -/
theorem C1_certificate_absent (cfg : JsVal) (stage apiName : String) (t : DistributionConfig)
    (hcert : isNull (getConfig cfg ["certificate"] .null) = true) :
    (∀ o, prepareResources cfg stage apiName t = .ok o → o.ViewerCertificate = none) ∧
    (truthy (getConfig cfg ["minimumProtocolVersion"] .undef) = true →
      prepareResources cfg stage apiName t = .error "TypeError") := by
  constructor
  · intro o ho
    rw [prepareResources_eq] at ho
    by_cases hok : okAll cfg t = true
    · rw [if_pos hok] at ho
      injection ho with ho'
      subst ho'
      rw [pipeFun_ViewerCertificate]
      simp [hcert]
    · rw [if_neg hok] at ho
      exact absurd ho (by simp)
  · intro hmpv
    rw [prepareResources_eq]
    have hfalse : okAll cfg t = false := by simp [okAll, hcert, hmpv]
    rw [hfalse]
    rfl

/-- Claim C1, witness: a run with `certificate` and
`minimumProtocolVersion` both absent ends with no `ViewerCertificate`. -/
theorem C1_witness :
    (pipeFun (.obj []) "dev" "api" sampleDC).ViewerCertificate = none :=
  (C1_certificate_absent (.obj []) "dev" "api" sampleDC rfl).1
    (pipeFun (.obj []) "dev" "api" sampleDC) rfl

/-- Claim C2, counterexample: lodash `_.merge` does not replace an array
leaf of the target wholesale — it merges index by index, so the target's
second element survives. -/
theorem C2_counterexample :
    mergeVals (.obj [("a", .arr [.num 1, .num 2])]) (.obj [("a", .arr [.num 9])])
      = .obj [("a", .arr [.num 9, .num 2])] ∧
    mergeVals (.obj [("a", .arr [.num 1, .num 2])]) (.obj [("a", .arr [.num 9])])
      ≠ .obj [("a", .arr [.num 9])] := by
  refine ⟨?_, ?_⟩ <;> simp [mergeVals, mergeFields, mergeOneField, mergeElems]

/-- Claim C2, amended: the template merge is a deep merge in which nested
maps merge recursively key by key and a scalar source leaf overwrites
the target value; an array source value however merges element-wise by
index with a target array (the target's extra elements survive) instead
of replacing it in its entirety, and an `undefined` source value leaves
the target untouched. -/
theorem C2_merge_semantics :
    (∀ tf sf : List (String × JsVal), mergeVals (.obj tf) (.obj sf) = .obj (mergeFields tf sf)) ∧
    (∀ (tf sf : List (String × JsVal)) (k : String), (sf.map Prod.fst).Nodup →
      (mergeFields tf sf).lookup k =
        match sf.lookup k, tf.lookup k with
        | some sv, some tv => some (mergeVals tv sv)
        | some sv, none => some sv
        | none, o => o) ∧
    (∀ tx sx : List JsVal, mergeVals (.arr tx) (.arr sx) = .arr (mergeElems tx sx)) ∧
    (∀ (tx sx : List JsVal) (i : Nat),
      (mergeElems tx sx)[i]? =
        match tx[i]?, sx[i]? with
        | some t, some s => some (mergeVals t s)
        | some t, none => some t
        | none, so => so) ∧
    (∀ t s : JsVal, isScalar s = true → mergeVals t s = s) :=
  ⟨fun _ _ => by simp [mergeVals],
   fun tf sf k h => mergeFields_lookup sf tf k h,
   fun _ _ => by simp [mergeVals],
   mergeElems_getElem?,
   mergeVals_scalar⟩

/-- Claim C2, witness: the merge semantics evaluated at concrete inputs —
a key present on both sides takes the source's scalar, and a scalar
source overwrites. -/
theorem C2_witness :
    (mergeFields [("a", .num 1), ("b", .num 2)] [("b", .num 9), ("c", .num 3)]).lookup "b"
      = some (.num 9) ∧
    mergeVals (.num 1) (.str "x") = .str "x" := by
  constructor
  · have h := C2_merge_semantics.2.1 [("a", .num 1), ("b", .num 2)]
      [("b", .num 9), ("c", .num 3)] "b" (by simp)
    rw [h]
    simp [List.lookup, mergeVals]
  · exact C2_merge_semantics.2.2.2.2 (.num 1) (.str "x") rfl

/-- Claim C3: for every base template, configuration map and stage,
`prepareResources` (which calls TTL before Policies) returns exactly
what the rules applied in the order of spec §4.2 (Policies before TTL)
return: the two rules update disjoint fields of
`DefaultCacheBehavior`, so the swap is unobservable. -/
theorem C3_rule_order (cfg : JsVal) (stage apiName : String) (dc : DistributionConfig) :
    prepareResources cfg stage apiName dc = prepareResourcesSpecOrder cfg stage apiName dc := rfl

/-- Claim C4, counterexample: `cachePolicyId` present with the (falsy)
value `""` is ignored — `preparePolicies` tests truthiness, not
presence, so the output keeps the template's absent `CachePolicyId`
rather than the configured empty string. -/
theorem C4_counterexample :
    getPath (JsVal.obj [("cachePolicyId", .str "")]) ["cachePolicyId"] = .str "" ∧
    (prepareResources (.obj [("cachePolicyId", .str "")]) "dev" "api" sampleDC).map
      (fun o => o.DefaultCacheBehavior.CachePolicyId) = .ok none ∧
    (none : Option JsVal) ≠ some (.str "") :=
  ⟨rfl, rfl, by simp⟩

/-- Claim C4, amended: if `cachePolicyId` is present with a truthy value
the output's `CachePolicyId` equals it, and likewise for
`originRequestPolicyId`; the two are independent; when a key is absent
— or present with a falsy value such as `""`, `false` or `0` — the
template's value is left untouched. -/
theorem C4_policy_settings (cfg : JsVal) (stage apiName : String) (t o : DistributionConfig)
    (h : prepareResources cfg stage apiName t = .ok o) :
    o.DefaultCacheBehavior.CachePolicyId =
      (if truthy (getConfig cfg ["cachePolicyId"] .null)
       then some (getConfig cfg ["cachePolicyId"] .null)
       else t.DefaultCacheBehavior.CachePolicyId) ∧
    o.DefaultCacheBehavior.OriginRequestPolicyId =
      (if truthy (getConfig cfg ["originRequestPolicyId"] .null)
       then some (getConfig cfg ["originRequestPolicyId"] .null)
       else t.DefaultCacheBehavior.OriginRequestPolicyId) := by
  rw [prepareResources_eq] at h
  by_cases hok : okAll cfg t = true
  · rw [if_pos hok] at h
    injection h with h'
    subst h'
    exact ⟨pipeFun_CachePolicyId cfg stage apiName t, pipeFun_OriginRequestPolicyId cfg stage apiName t⟩
  · rw [if_neg hok] at h
    exact absurd h (by simp)

/-- Claim C4, witness: truthy values for both policy keys are written
through to the output, independently. -/
theorem C4_witness :
    (pipeFun (.obj [("cachePolicyId", .str "cp-1"), ("originRequestPolicyId", .str "orp-1")])
      "dev" "api" sampleDC).DefaultCacheBehavior.CachePolicyId = some (.str "cp-1") ∧
    (pipeFun (.obj [("cachePolicyId", .str "cp-1"), ("originRequestPolicyId", .str "orp-1")])
      "dev" "api" sampleDC).DefaultCacheBehavior.OriginRequestPolicyId = some (.str "orp-1") := by
  have h := C4_policy_settings
    (.obj [("cachePolicyId", .str "cp-1"), ("originRequestPolicyId", .str "orp-1")])
    "dev" "api" sampleDC _ rfl
  exact ⟨h.1.trans rfl, h.2.trans rfl⟩

/-- Claim C5, counterexample: two runs with the identical triple (base
template, configuration map, stage) but different API-gateway names —
an input the Comment rule reads from the external naming collaborator —
produce different outputs, so the output is not a function of that
triple alone. -/
theorem C5_counterexample :
    (prepareResources (.obj []) "dev" "serviceA" sampleDC).map DistributionConfig.Comment
      = .ok "Serverless Managed serviceA" ∧
    (prepareResources (.obj []) "dev" "serviceB" sampleDC).map DistributionConfig.Comment
      = .ok "Serverless Managed serviceB" ∧
    prepareResources (.obj []) "dev" "serviceA" sampleDC ≠
      prepareResources (.obj []) "dev" "serviceB" sampleDC := by
  refine ⟨rfl, rfl, fun h => ?_⟩
  have h2 : (Except.ok "Serverless Managed serviceA" : Except String String)
      = .ok "Serverless Managed serviceB" :=
    congrArg (Except.map DistributionConfig.Comment) h
  injection h2 with h3
  exact absurd h3 (by decide)

/-- Claim C5, amended: the artifact creation is deterministic — a pure
function of the full input tuple (caller's template, static resource
template, configuration map, stage, API-gateway name, provider tags):
runs with equal inputs yield equal outputs. -/
theorem C5_determinism (b b' : JsVal) (rdc rdc' : DistributionConfig) (cfg cfg' : JsVal)
    (s s' n n' : String) (tg tg' : Option (List (String × JsVal)))
    (hb : b = b') (hr : rdc = rdc') (hc : cfg = cfg') (hs : s = s') (hn : n = n')
    (ht : tg = tg') :
    createDeploymentArtifacts b rdc cfg s n tg = createDeploymentArtifacts b' rdc' cfg' s' n' tg' := by
  subst hb hr hc hs hn ht
  rfl

/-- Claim C5, witness: determinism at a concrete input. -/
theorem C5_witness :
    createDeploymentArtifacts (.obj []) sampleDC (.obj []) "dev" "api" none
      = createDeploymentArtifacts (.obj []) sampleDC (.obj []) "dev" "api" none :=
  C5_determinism (.obj []) (.obj []) sampleDC sampleDC (.obj []) (.obj [])
    "dev" "dev" "api" "api" none none rfl rfl rfl rfl rfl rfl

/-- Claim C6: for every successful run, `domain` absent deletes
`Aliases`, a scalar string domain yields the one-element list, and a
list domain is used unchanged. -/
theorem C6_domain_aliases (cfg : JsVal) (stage apiName : String) (t o : DistributionConfig)
    (h : prepareResources cfg stage apiName t = .ok o) :
    (getPath cfg ["domain"] = .undef → o.Aliases = none) ∧
    (∀ s : String, getPath cfg ["domain"] = .str s → o.Aliases = some [.str s]) ∧
    (∀ ds : List JsVal, getPath cfg ["domain"] = .arr ds → o.Aliases = some ds) := by
  rw [prepareResources_eq] at h
  by_cases hok : okAll cfg t = true
  · rw [if_pos hok] at h
    injection h with h'
    subst h'
    refine ⟨fun hd => ?_, fun s hd => ?_, fun ds hd => ?_⟩ <;>
      rw [pipeFun_Aliases] <;> simp [getConfig, hd, isNull]
  · rw [if_neg hok] at h
    exact absurd h (by simp)

/-- Claim C6, witness: `domain = "example.com"` yields
`Aliases = ["example.com"]`. -/
theorem C6_witness :
    (pipeFun (.obj [("domain", .str "example.com")]) "dev" "api" sampleDC).Aliases
      = some [.str "example.com"] :=
  (C6_domain_aliases (.obj [("domain", .str "example.com")]) "dev" "api" sampleDC _ rfl).2.1
    "example.com" rfl

/-- Claim C7: for every successful run, `httpApi = true` empties
`Origins[0].OriginPath`, and `httpApi` absent or `false` sets it to
`"/" ++ stage`. -/
theorem C7_origin_path (cfg : JsVal) (stage apiName : String) (t o : DistributionConfig)
    (h : prepareResources cfg stage apiName t = .ok o) :
    (getPath cfg ["httpApi"] = .bool true →
      o.Origins.head?.map Origin.OriginPath = some "") ∧
    ((getPath cfg ["httpApi"] = .undef ∨ getPath cfg ["httpApi"] = .bool false) →
      o.Origins.head?.map Origin.OriginPath = some ("/" ++ stage)) := by
  rw [prepareResources_eq] at h
  by_cases hok : okAll cfg t = true
  · rw [if_pos hok] at h
    injection h with h'
    subst h'
    have hok' := hok
    simp only [okAll, Bool.and_eq_true] at hok'
    obtain ⟨⟨⟨⟨-, h2⟩, h3⟩, -⟩, -⟩ := hok'
    cases ht : t.Origins with
    | nil =>
        rw [ht] at h2
        simp at h2
    | cons o0 rest =>
        cases hoc : getConfig cfg ["originCustomHeaders"] (.arr []) <;>
          rw [hoc] at h3 <;> simp [isArray] at h3
        constructor
        · intro hh
          have hhApi : getConfig cfg ["httpApi"] (.bool false) = .bool true := by
            simp [getConfig, hh]
          rw [pipeFun_Origins]
          simp [ht, hoc, hhApi, truthy]
        · intro hh
          have hhApi : getConfig cfg ["httpApi"] (.bool false) = .bool false := by
            rcases hh with hh | hh <;> simp [getConfig, hh]
          rw [pipeFun_Origins]
          simp [ht, hoc, hhApi, truthy]
  · rw [if_neg hok] at h
    exact absurd h (by simp)

/-- Claim C7, witness: `httpApi` absent with stage `"prod"` gives
`OriginPath = "/prod"`. -/
theorem C7_witness :
    (pipeFun (.obj []) "prod" "api" sampleDC).Origins.head?.map Origin.OriginPath
      = some "/prod" :=
  (C7_origin_path (.obj []) "prod" "api" sampleDC _ rfl).2 (Or.inl rfl)

/-- Claim C8: in every successful run the `Logging` block is all or
nothing — when present it carries a real bucket (neither null nor
undefined) and a defined prefix, and when `logging.bucket` is absent
the block is removed entirely. -/
theorem C8_logging_all_or_nothing (cfg : JsVal) (stage apiName : String)
    (t o : DistributionConfig) (h : prepareResources cfg stage apiName t = .ok o) :
    (∀ lg, o.Logging = some lg →
      lg.Bucket ≠ .null ∧ lg.Bucket ≠ .undef ∧ lg.Prefix ≠ .undef) ∧
    (getPath cfg ["logging", "bucket"] = .undef → o.Logging = none) := by
  rw [prepareResources_eq] at h
  by_cases hok : okAll cfg t = true
  · rw [if_pos hok] at h
    injection h with h'
    subst h'
    constructor
    · intro lg hlg
      rw [pipeFun_Logging] at hlg
      by_cases hb : isNull (getConfig cfg ["logging", "bucket"] .null) = true
      · rw [if_pos hb] at hlg
        exact absurd hlg (by simp)
      · rw [if_neg hb] at hlg
        injection hlg with hlg'
        subst hlg'
        exact ⟨ne_null_of_isNull_false (by simpa using hb),
          getConfig_ne_undef _ _ _ (by simp),
          getConfig_ne_undef _ _ _ (by simp)⟩
    · intro hd
      rw [pipeFun_Logging]
      simp [getConfig, hd, isNull]
  · rw [if_neg hok] at h
    exact absurd h (by simp)

/-- Claim C8, witness: a configured bucket and prefix land as a fully
populated `Logging` block. -/
theorem C8_witness :
    (LoggingBlock.mk (.str "logs.example.com") (.str "api/")).Bucket ≠ .null ∧
    (LoggingBlock.mk (.str "logs.example.com") (.str "api/")).Bucket ≠ .undef ∧
    (LoggingBlock.mk (.str "logs.example.com") (.str "api/")).Prefix ≠ .undef :=
  (C8_logging_all_or_nothing
    (.obj [("logging", .obj [("bucket", .str "logs.example.com"), ("prefix", .str "api/")])])
    "dev" "api" sampleDC _ rfl).1 _ rfl

/-- Claim C9: an explicit `null` for `logging.bucket`, `domain`,
`certificate` or `waf` takes the same deletion branch as an absent key,
because `_.get` substitutes the default only for an `undefined`
resolution and the branch conditions compare against `null`. -/
theorem C9_explicit_null (cfg : JsVal) (stage apiName : String) (t o : DistributionConfig)
    (h : prepareResources cfg stage apiName t = .ok o) :
    (getPath cfg ["logging", "bucket"] = .null → o.Logging = none) ∧
    (getPath cfg ["domain"] = .null → o.Aliases = none) ∧
    (getPath cfg ["certificate"] = .null → o.ViewerCertificate = none) ∧
    (getPath cfg ["waf"] = .null → o.WebACLId = none) := by
  rw [prepareResources_eq] at h
  by_cases hok : okAll cfg t = true
  · rw [if_pos hok] at h
    injection h with h'
    subst h'
    refine ⟨fun hd => ?_, fun hd => ?_, fun hd => ?_, fun hd => ?_⟩
    · rw [pipeFun_Logging]
      simp [getConfig, hd, isNull]
    · rw [pipeFun_Aliases]
      simp [getConfig, hd, isNull]
    · rw [pipeFun_ViewerCertificate]
      simp [getConfig, hd, isNull]
    · rw [pipeFun_WebACLId]
      simp [getConfig, hd, isNull]
  · rw [if_neg hok] at h
    exact absurd h (by simp)

/-- Claim C9, witness: all four keys explicitly null behave as absent —
every corresponding block is deleted. -/
theorem C9_witness :
    (pipeFun (.obj [("logging", .obj [("bucket", .null)]), ("domain", .null),
      ("certificate", .null), ("waf", .null)]) "dev" "api" sampleDC).Logging = none ∧
    (pipeFun (.obj [("logging", .obj [("bucket", .null)]), ("domain", .null),
      ("certificate", .null), ("waf", .null)]) "dev" "api" sampleDC).Aliases = none ∧
    (pipeFun (.obj [("logging", .obj [("bucket", .null)]), ("domain", .null),
      ("certificate", .null), ("waf", .null)]) "dev" "api" sampleDC).ViewerCertificate = none ∧
    (pipeFun (.obj [("logging", .obj [("bucket", .null)]), ("domain", .null),
      ("certificate", .null), ("waf", .null)]) "dev" "api" sampleDC).WebACLId = none := by
  have h := C9_explicit_null (.obj [("logging", .obj [("bucket", .null)]), ("domain", .null),
    ("certificate", .null), ("waf", .null)]) "dev" "api" sampleDC _ rfl
  exact ⟨h.1 rfl, h.2.1 rfl, h.2.2.1 rfl, h.2.2.2 rfl⟩

/-- Claim C10: in every pair of successful runs over the same
configuration and stage, the unconditionally overwritten fields
(PriceClass, Comment, Origins[0].DomainName/OriginPath/
OriginCustomHeaders, Compress, Cookies.Forward, Headers, QueryString)
agree whatever the two base templates held; and every other field is
changed only by the rule that names it — its output value depends only
on the configuration and that field's own base value (and the origins
past the first are preserved verbatim). -/
theorem C10_overwrite_and_frame (cfg : JsVal) (stage apiName : String)
    (t1 t2 o1 o2 : DistributionConfig)
    (h1 : prepareResources cfg stage apiName t1 = .ok o1)
    (h2 : prepareResources cfg stage apiName t2 = .ok o2) :
    (o1.PriceClass = o2.PriceClass ∧
     o1.Comment = o2.Comment ∧
     o1.DefaultCacheBehavior.Compress = o2.DefaultCacheBehavior.Compress ∧
     o1.DefaultCacheBehavior.ForwardedValues.Cookies.Forward
       = o2.DefaultCacheBehavior.ForwardedValues.Cookies.Forward ∧
     o1.DefaultCacheBehavior.ForwardedValues.Headers
       = o2.DefaultCacheBehavior.ForwardedValues.Headers ∧
     o1.DefaultCacheBehavior.ForwardedValues.QueryString
       = o2.DefaultCacheBehavior.ForwardedValues.QueryString ∧
     o1.Origins.head?.map Origin.DomainName = o2.Origins.head?.map Origin.DomainName ∧
     o1.Origins.head?.map Origin.OriginPath = o2.Origins.head?.map Origin.OriginPath ∧
     o1.Origins.head?.map Origin.OriginCustomHeaders
       = o2.Origins.head?.map Origin.OriginCustomHeaders) ∧
    ((t1.Logging = t2.Logging → o1.Logging = o2.Logging) ∧
     (t1.Aliases = t2.Aliases → o1.Aliases = o2.Aliases) ∧
     (t1.ViewerCertificate = t2.ViewerCertificate →
       o1.ViewerCertificate = o2.ViewerCertificate) ∧
     (t1.WebACLId = t2.WebACLId → o1.WebACLId = o2.WebACLId) ∧
     (t1.DefaultCacheBehavior.CachePolicyId = t2.DefaultCacheBehavior.CachePolicyId →
       o1.DefaultCacheBehavior.CachePolicyId = o2.DefaultCacheBehavior.CachePolicyId) ∧
     (t1.DefaultCacheBehavior.OriginRequestPolicyId
         = t2.DefaultCacheBehavior.OriginRequestPolicyId →
       o1.DefaultCacheBehavior.OriginRequestPolicyId
         = o2.DefaultCacheBehavior.OriginRequestPolicyId) ∧
     (t1.DefaultCacheBehavior.DefaultTTL = t2.DefaultCacheBehavior.DefaultTTL →
       o1.DefaultCacheBehavior.DefaultTTL = o2.DefaultCacheBehavior.DefaultTTL) ∧
     (t1.DefaultCacheBehavior.MaxTTL = t2.DefaultCacheBehavior.MaxTTL →
       o1.DefaultCacheBehavior.MaxTTL = o2.DefaultCacheBehavior.MaxTTL) ∧
     (t1.DefaultCacheBehavior.MinTTL = t2.DefaultCacheBehavior.MinTTL →
       o1.DefaultCacheBehavior.MinTTL = o2.DefaultCacheBehavior.MinTTL) ∧
     (t1.DefaultCacheBehavior.ForwardedValues.Cookies.WhitelistedNames
         = t2.DefaultCacheBehavior.ForwardedValues.Cookies.WhitelistedNames →
       o1.DefaultCacheBehavior.ForwardedValues.Cookies.WhitelistedNames
         = o2.DefaultCacheBehavior.ForwardedValues.Cookies.WhitelistedNames) ∧
     (t1.DefaultCacheBehavior.ForwardedValues.QueryStringCacheKeys
         = t2.DefaultCacheBehavior.ForwardedValues.QueryStringCacheKeys →
       o1.DefaultCacheBehavior.ForwardedValues.QueryStringCacheKeys
         = o2.DefaultCacheBehavior.ForwardedValues.QueryStringCacheKeys) ∧
     o1.Origins.tail = t1.Origins.tail ∧ o2.Origins.tail = t2.Origins.tail) := by
  rw [prepareResources_eq] at h1 h2
  by_cases hok1 : okAll cfg t1 = true
  case neg =>
    rw [if_neg hok1] at h1
    exact absurd h1 (by simp)
  by_cases hok2 : okAll cfg t2 = true
  case neg =>
    rw [if_neg hok2] at h2
    exact absurd h2 (by simp)
  rw [if_pos hok1] at h1
  rw [if_pos hok2] at h2
  injection h1 with e1
  injection h2 with e2
  subst e1
  subst e2
  have hok1' := hok1
  simp only [okAll, Bool.and_eq_true] at hok1'
  obtain ⟨⟨⟨⟨-, hO1⟩, hA1⟩, -⟩, -⟩ := hok1'
  have hok2' := hok2
  simp only [okAll, Bool.and_eq_true] at hok2'
  obtain ⟨⟨⟨⟨-, hO2⟩, -⟩, -⟩, -⟩ := hok2'
  cases ht1 : t1.Origins with
  | nil =>
      rw [ht1] at hO1
      simp at hO1
  | cons p1 r1 =>
  cases ht2 : t2.Origins with
  | nil =>
      rw [ht2] at hO2
      simp at hO2
  | cons p2 r2 =>
  cases hoc : getConfig cfg ["originCustomHeaders"] (.arr []) <;>
    rw [hoc] at hA1 <;> simp [isArray] at hA1
  refine ⟨⟨?_, ?_, ?_, ?_, ?_, ?_, ?_, ?_, ?_⟩,
    ?_, ?_, ?_, ?_, ?_, ?_, ?_, ?_, ?_, ?_, ?_, ?_, ?_⟩
  · rw [pipeFun_PriceClass, pipeFun_PriceClass]
  · rw [pipeFun_Comment, pipeFun_Comment]
  · rw [pipeFun_Compress, pipeFun_Compress]
  · rw [pipeFun_CookiesForward, pipeFun_CookiesForward]
  · rw [pipeFun_Headers, pipeFun_Headers]
  · rw [pipeFun_QueryString, pipeFun_QueryString]
  · rw [pipeFun_Origins, pipeFun_Origins]
    simp [ht1, ht2, hoc]
  · rw [pipeFun_Origins, pipeFun_Origins]
    simp [ht1, ht2, hoc]
  · rw [pipeFun_Origins, pipeFun_Origins]
    simp [ht1, ht2, hoc]
  · intro hh
    rw [pipeFun_Logging, pipeFun_Logging]
  · intro hh
    rw [pipeFun_Aliases, pipeFun_Aliases]
  · intro hh
    rw [pipeFun_ViewerCertificate, pipeFun_ViewerCertificate, hh]
  · intro hh
    rw [pipeFun_WebACLId, pipeFun_WebACLId]
  · intro hh
    rw [pipeFun_CachePolicyId, pipeFun_CachePolicyId, hh]
  · intro hh
    rw [pipeFun_OriginRequestPolicyId, pipeFun_OriginRequestPolicyId, hh]
  · intro hh
    rw [pipeFun_DefaultTTL, pipeFun_DefaultTTL, hh]
  · intro hh
    rw [pipeFun_MaxTTL, pipeFun_MaxTTL, hh]
  · intro hh
    rw [pipeFun_MinTTL, pipeFun_MinTTL, hh]
  · intro hh
    rw [pipeFun_WhitelistedNames, pipeFun_WhitelistedNames, hh]
  · intro hh
    rw [pipeFun_QueryStringCacheKeys, pipeFun_QueryStringCacheKeys, hh]
  · rw [pipeFun_Origins]
    simp [ht1, hoc]
  · rw [pipeFun_Origins]
    simp [ht2, hoc]

/-- Claim C10, witness: two templates differing exactly in overwritten
fields (PriceClass, Comment, Compress) give outputs agreeing on them,
and a field owned by another rule (Logging) also agrees since its base
values agree. -/
theorem C10_witness :
    (pipeFun (.obj []) "dev" "api" sampleDC).PriceClass
      = (pipeFun (.obj []) "dev" "api" sampleDC2).PriceClass ∧
    (pipeFun (.obj []) "dev" "api" sampleDC).Logging
      = (pipeFun (.obj []) "dev" "api" sampleDC2).Logging := by
  have h := C10_overwrite_and_frame (.obj []) "dev" "api" sampleDC sampleDC2 _ _ rfl rfl
  exact ⟨h.1.1, h.2.1 rfl⟩

end SACF
